import Mathlib

/-!
Shallow embedding of the driver recommendation system's core
(RidziiXC/Driver-Recommendation-System) and proofs about it.

Two engine variants exist in the source:

* `DriverRecommendationSystem` (file `Driver Recommendation System.py`):
  builds `experience_matrix` / `province_experience` / `drivers_stats` from
  raw rows (`build_experience_matrix`) and scores one destination per driver
  (`calculate_compatibility_score`).
* `RecommendationEngine` (`recommendation_engine.py`): reads trip rows and a
  precomputed driver-stats table (both produced by
  `database_manager.py`) and scores a route of 1-4 destinations
  (`calculate_route_score`).

Python dictionaries (`defaultdict(lambda: defaultdict(int))`) are embedded as
insertion-ordered association lists; missing keys read as 0, exactly like the
source's `dict.get(k, 0)`.  Pandas `NaN` cells are embedded as `Option.none`
(`pd.notna` is `Option.isSome`): a blank spreadsheet cell becomes `NaN` under
`pd.read_csv`, is stored as SQL `NULL`, and reads back as `NaN`.  Python
floats are embedded as `ℚ`; every score is a sum of naturals plus
`min(total_trips * 0.5, 10)`, hence an exact multiple of 1/2, so no
floating-point rounding ever occurs in the source's arithmetic.

The Python string primitives used by the source (`str.strip`, `str.lower`,
`str.split` with and without a separator) are embedded by structural
recursion over the character list of the string, with the same observable
behaviour on the data handled here (Python's `lower` and whitespace class
cover more of Unicode, but the repository's data is Thai - caseless - and
ASCII).
-/

/-- Python `s.split(sep)` on the character list: greedy split at every
separator occurrence, keeping empty groups (`"".split('+') == ['']`). -/
def splitOnCharList (sep : Char) : List Char → List (List Char)
  | [] => [[]]
  | c :: rest =>
      let r := splitOnCharList sep rest
      if c = sep then [] :: r
      else
        match r with
        | [] => [[c]]
        | g :: gs => (c :: g) :: gs

/-- Python `s.split(sep)`. -/
def pySplitOn (s : String) (sep : Char) : List String :=
  (splitOnCharList sep s.data).map (fun g => { data := g })

/-- Splitting at every whitespace character (empty groups kept; Python's
separator-less `split` is this followed by dropping empty groups). -/
def splitWhitespaceList : List Char → List (List Char)
  | [] => [[]]
  | c :: rest =>
      let r := splitWhitespaceList rest
      if c.isWhitespace then [] :: r
      else
        match r with
        | [] => [[c]]
        | g :: gs => (c :: g) :: gs

/-- Python `s.strip()`: drop leading and trailing whitespace. -/
def pyStrip (s : String) : String :=
  { data := ((s.data.dropWhile Char.isWhitespace).reverse.dropWhile
      Char.isWhitespace).reverse }

/-- Python `s.lower()`. -/
def pyLower (s : String) : String := { data := s.data.map Char.toLower }

/-- Python `s.lower().split()`: lowercase, split on whitespace runs,
dropping empty tokens. -/
def tokens (s : String) : List String :=
  ((splitWhitespaceList (pyLower s).data).filter (fun g => !g.isEmpty)).map
    (fun g => { data := g })

/-- Per-driver count map, `location → visit count` or `province → count`:
embeds one inner `defaultdict(int)`, in insertion order. -/
abbrev CountMap := List (String × Nat)

/-- Two-level map `driver → CountMap`: embeds the outer `defaultdict`. -/
abbrev ExpMatrix := List (String × CountMap)

/-- Reading a possibly missing key, Python `m.get(k, 0)`. -/
def getCount (m : CountMap) (k : String) : Nat :=
  match m with
  | [] => 0
  | (k', v) :: rest => if k' = k then v else getCount rest k

/-- Python `m[k] += 1` on a `defaultdict(int)`: update in place, or append a
fresh key with count 1. -/
def bumpCount (m : CountMap) (k : String) : CountMap :=
  match m with
  | [] => [(k, 1)]
  | (k', v) :: rest =>
      if k' = k then (k', v + 1) :: rest else (k', v) :: bumpCount rest k

/-- Reading a driver's inner map; a missing driver reads as the empty map
(the source only ever reads rows of drivers already present, and
`defaultdict` would hand back a fresh empty inner dict). -/
def getRow (m : ExpMatrix) (d : String) : CountMap :=
  match m with
  | [] => []
  | (d', row) :: rest => if d' = d then row else getRow rest d

/-- Python `matrix[d][k] += 1` on the nested `defaultdict`. -/
def bumpAt (m : ExpMatrix) (d k : String) : ExpMatrix :=
  match m with
  | [] => [(d, [(k, 1)])]
  | (d', row) :: rest =>
      if d' = d then (d', bumpCount row k) :: rest
      else (d', row) :: bumpAt rest d k

/-- Key list of a two-level map (`dict.keys()`, insertion order). -/
def matKeys (m : ExpMatrix) : List String := m.map Prod.fst

/-- Sum of the counts of an inner map (`sum(m.values())`). -/
def sumCounts (m : CountMap) : Nat := (m.map Prod.snd).sum

/-- One raw imported row (a record of the spreadsheet).  Fields are the
columns `สถานที่ส่ง` (location), `จังหวัด` (province), `Driver`,
`ผู้แทน` (representative); `none` embeds a pandas `NaN` cell. -/
structure RawRow where
  location : Option String
  province : Option String
  driver : Option String
  representative : Option String
deriving DecidableEq, Repr, Inhabited

/-- One row of the `trips` table written by
`DatabaseManager.save_trips_data` (one logical trip per driver). -/
structure TripRow where
  location : String
  province : Option String
  driver : String
  representative : String
deriving DecidableEq, Repr, Inhabited

/-- Cleaned driver tokens of a raw row in `build_experience_matrix`:
the row survives `dropna(subset=['สถานที่ส่ง', 'Driver'])` and the
whole-field filter `df['Driver'] != 'ยกเลิก'`; the field is then split on
`+`, each token stripped, and empty or `'nan'` tokens skipped. -/
def cleanDriversA (r : RawRow) : List String :=
  match r.location, r.driver with
  | some _, some drv =>
      if drv = "ยกเลิก" then []
      else ((pySplitOn drv '+').map pyStrip).filter
        (fun d => d != "" && d != "nan")
  | _, _ => []

/-- Cleaned driver tokens in `DatabaseManager.save_trips_data`: both
`สถานที่ส่ง` and `Driver` must be `notna`; tokens are split on `+`,
stripped, and dropped when empty, `'ยกเลิก'` or `'nan'` (here the
cancelled marker is checked per token, not on the whole field). -/
def cleanDriversDB (r : RawRow) : List String :=
  match r.location, r.driver with
  | some _, some drv =>
      ((pySplitOn drv '+').map pyStrip).filter
        (fun d => d != "" && d != "ยกเลิก" && d != "nan")
  | _, _ => []

/-- Body of the row loop of `build_experience_matrix`: for each cleaned
driver token, `experience_matrix[driver][location] += 1`, and
`province_experience[driver][province] += 1` when `pd.notna(province)`.
The state is the pair `(experience_matrix, province_experience)`. -/
def processRowA (st : ExpMatrix × ExpMatrix) (r : RawRow) : ExpMatrix × ExpMatrix :=
  match r.location with
  | some loc =>
      (cleanDriversA r).foldl
        (fun ms d =>
          (bumpAt ms.1 d loc,
           match r.province with
           | some p => bumpAt ms.2 d p
           | none => ms.2))
        st
  | none => st

/-- Per-driver statistics of `_calculate_driver_stats`.  The source also
stores a `hospital_types` list (from `_categorize_hospital`); it is pure
presentation, read by no scoring code, and is omitted here. -/
structure DriverStats where
  total_trips : Nat
  unique_locations : Nat
  provinces_covered : Nat
  avg_trips_per_location : ℚ
deriving DecidableEq, Repr, Inhabited

/-- Embeds `_calculate_driver_stats`: one entry per driver of the
experience matrix, in key order. -/
def calcDriverStats (em pm : ExpMatrix) : List (String × DriverStats) :=
  em.map (fun p =>
    let total_trips := sumCounts p.2
    let unique_locations := p.2.length
    (p.1,
     { total_trips := total_trips
       unique_locations := unique_locations
       provinces_covered := (getRow pm p.1).length
       avg_trips_per_location :=
         if 0 < unique_locations then (total_trips : ℚ) / (unique_locations : ℚ)
         else 0 }))

/-- Aggregate state of `DriverRecommendationSystem` after
`build_experience_matrix` has run. -/
structure SysState where
  experience_matrix : ExpMatrix
  province_experience : ExpMatrix
  drivers_stats : List (String × DriverStats)
deriving DecidableEq, Repr, Inhabited

/-- Embeds `build_experience_matrix` applied to a list of raw rows,
followed by `_calculate_driver_stats`. -/
def buildSystem (rows : List RawRow) : SysState :=
  let ms := rows.foldl processRowA ([], [])
  { experience_matrix := ms.1
    province_experience := ms.2
    drivers_stats := calcDriverStats ms.1 ms.2 }

/-- Stats of one driver as read by `self.drivers_stats[driver]`; the scorer
only reads drivers that are keys of the experience matrix, for which the
entry always exists (the default is never reached from the scorer). -/
def getStatsA (st : SysState) (driver : String) : DriverStats :=
  (List.lookup driver st.drivers_stats).getD default

/-- Full matched list of `_find_similar_locations` before its final
`[:5]` truncation: visited locations of the driver's map whose lowercased
token set shares with the destination's token set at least one word
besides the stoplist words `โรงพยาบาล` (hospital) and `ที่` (that/the).
The source intersects Python sets; only emptiness of the intersection is
ever used, so token lists stand in for the sets. -/
def find_similar_matched (locMap : CountMap) (destination : String) : List String :=
  let destination_words := tokens destination
  (locMap.map Prod.fst).filter (fun location =>
    let common_words :=
      (tokens location).filter (fun w => decide (w ∈ destination_words))
    let kept := common_words.filter (fun w => w != "โรงพยาบาล" && w != "ที่")
    !kept.isEmpty)

/-- Embeds `_find_similar_locations` (identical in both source variants):
the matched list truncated to its first five entries. -/
def find_similar (locMap : CountMap) (destination : String) : List String :=
  (find_similar_matched locMap destination).take 5

/-- Python `round(x, 2)`.  All scores are exact multiples of 1/2, so
`x * 100` is an integer and the tie-breaking mode of `round` is
irrelevant on every value this is applied to. -/
def round2 (q : ℚ) : ℚ := ((round (q * 100) : ℤ) : ℚ) / 100

/-- Direct-experience component of `calculate_compatibility_score`
(points and appended explanation): `min(direct_exp * 10, 40)` when the
driver has visited the exact destination, else nothing. -/
def directPartA (st : SysState) (destination driver : String) : ℚ × List String :=
  let direct_exp := getCount (getRow st.experience_matrix driver) destination
  if 0 < direct_exp then
    (((min (direct_exp * 10) 40 : ℕ) : ℚ),
     ["เคยไป " ++ destination ++ " จำนวน " ++ toString direct_exp ++ " ครั้ง"])
  else (0, [])

/-- Province-experience component: evaluated only when the optional
destination province is truthy in Python (`if destination_province:`),
i.e. present and non-empty; then `min(province_exp * 3, 30)` when the
count is positive. -/
def provincePartA (st : SysState) (destination_province : Option String)
    (driver : String) : ℚ × List String :=
  match destination_province with
  | none => (0, [])
  | some dp =>
      if dp = "" then (0, [])
      else
        let province_exp := getCount (getRow st.province_experience driver) dp
        if 0 < province_exp then
          (((min (province_exp * 3) 30 : ℕ) : ℚ),
           ["มีประสบการณ์ในจังหวัด " ++ dp ++ " จำนวน " ++
             toString province_exp ++ " ครั้ง"])
        else (0, [])

/-- Similar-location component: `min(len(similar_locations) * 5, 20)` over
the truncated list returned by `_find_similar_locations`, nothing when
that list is empty. -/
def similarPartA (st : SysState) (destination driver : String) : ℚ × List String :=
  let similar_locations := find_similar (getRow st.experience_matrix driver) destination
  if similar_locations.isEmpty then (0, [])
  else
    (((min (similar_locations.length * 5) 20 : ℕ) : ℚ),
     ["เคยไปสถานที่คล้ายกัน: " ++ String.intercalate ", " (similar_locations.take 3)])

/-- Overall-experience component: `min(total_exp * 0.5, 10)` when the
driver's total trip count is positive. -/
def overallPartA (st : SysState) (driver : String) : ℚ × List String :=
  let total_exp := (getStatsA st driver).total_trips
  if 0 < total_exp then
    (min ((total_exp : ℚ) * 0.5) 10,
     ["ประสบการณ์รวม " ++ toString total_exp ++ " เที่ยว"])
  else (0, [])

/-- Result record of `calculate_compatibility_score` for one driver. -/
structure ScoreInfo where
  score : ℚ
  explanations : List String
  stats : DriverStats
deriving DecidableEq, Repr, Inhabited

/-- Score of one driver in `calculate_compatibility_score`: the four
components are summed in source order, rounded to two decimals, and their
explanations concatenated in order of appending. -/
def scoreDriverA (st : SysState) (destination : String)
    (destination_province : Option String) (driver : String) : ScoreInfo :=
  let p1 := directPartA st destination driver
  let p2 := provincePartA st destination_province driver
  let p3 := similarPartA st destination driver
  let p4 := overallPartA st driver
  { score := round2 (p1.1 + p2.1 + p3.1 + p4.1)
    explanations := p1.2 ++ p2.2 ++ p3.2 ++ p4.2
    stats := getStatsA st driver }

/-- Embeds `calculate_compatibility_score`: one entry per driver of
`self.experience_matrix.keys()`, in key order. -/
def calculate_compatibility_score (st : SysState) (destination : String)
    (destination_province : Option String) : List (String × ScoreInfo) :=
  (matKeys st.experience_matrix).map
    (fun driver => (driver, scoreDriverA st destination destination_province driver))

/-- Per-driver row of the `drivers` table computed by
`DatabaseManager._update_driver_stats` (SQL aggregate). -/
structure EngineStats where
  total_trips : Nat
  unique_locations : Nat
  provinces_covered : Nat
deriving DecidableEq, Repr, Inhabited

/-- Embeds `save_trips_data`: the `trips` table is cleared and refilled
with one row per cleaned driver token of each raw row, sharing the row's
location, province and representative (a missing representative cell is
stored as the empty string by `row.get('ผู้แทน', '')`). -/
def save_trips_data (rows : List RawRow) : List TripRow :=
  rows.flatMap (fun r =>
    match r.location with
    | some loc =>
        (cleanDriversDB r).map (fun d =>
          { location := loc, province := r.province, driver := d,
            representative := r.representative.getD "" })
    | none => [])

/-- Embeds `_update_driver_stats`: the SQL
`SELECT driver, COUNT(*), COUNT(DISTINCT location), COUNT(DISTINCT province)
FROM trips WHERE driver != 'ยกเลิก' GROUP BY driver`.
`COUNT(DISTINCT province)` skips SQL `NULL` values (embedded `none`).
The GROUP BY output order is an SQL implementation detail no claim
depends on; groups appear here in first-occurrence order. -/
def update_driver_stats (trips : List TripRow) : List (String × EngineStats) :=
  let rows := trips.filter (fun t => t.driver != "ยกเลิก")
  ((rows.map TripRow.driver).dedup).map (fun d =>
    let mine := rows.filter (fun t => t.driver == d)
    (d,
     { total_trips := mine.length
       unique_locations := (mine.map TripRow.location).dedup.length
       provinces_covered := (mine.filterMap TripRow.province).dedup.length }))

/-- Aggregate state of `RecommendationEngine` after `load_data`. -/
structure EngineState where
  experience_matrix : ExpMatrix
  province_experience : ExpMatrix
  drivers_stats : List (String × EngineStats)
deriving DecidableEq, Repr, Inhabited

/-- Body of the trip loop of `RecommendationEngine.load_data`:
`experience_matrix[driver][location] += 1`, and the province map is
bumped only when `pd.notna(province)`. -/
def loadStepB (ms : ExpMatrix × ExpMatrix) (t : TripRow) : ExpMatrix × ExpMatrix :=
  (bumpAt ms.1 t.driver t.location,
   match t.province with
   | some p => bumpAt ms.2 t.driver p
   | none => ms.2)

/-- Embeds `RecommendationEngine.load_data`: matrices folded from the
`trips` table, stats taken verbatim from the `drivers` table. -/
def load_data (trips : List TripRow) (driversTable : List (String × EngineStats)) :
    EngineState :=
  let ms := trips.foldl loadStepB ([], [])
  { experience_matrix := ms.1
    province_experience := ms.2
    drivers_stats := driversTable }

/-- Full ingestion pipeline of the database-backed variant: raw rows are
saved by `DatabaseManager.save_trips_data` (which also recomputes the
`drivers` table), then read back by `RecommendationEngine.load_data`. -/
def engineFromRaw (rows : List RawRow) : EngineState :=
  let trips := save_trips_data rows
  load_data trips (update_driver_stats trips)

/-- One requested destination of a route
(`{'name': ..., 'province': ...}`); the GUI passes `province = None` when
the field is blank, and `dest.get('province', '')` turns that into `''`. -/
structure RouteDest where
  name : String
  province : Option String
deriving DecidableEq, Repr, Inhabited

/-- Direct-experience component of `calculate_route_score` for one
destination: as in the other variant but with the points named in the
explanation. -/
def directPartB (st : EngineState) (driver dest_name : String) : ℚ × List String :=
  let direct_exp := getCount (getRow st.experience_matrix driver) dest_name
  if 0 < direct_exp then
    let points := (min (direct_exp * 10) 40 : ℕ)
    ((points : ℚ),
     ["เคยไป " ++ dest_name ++ " จำนวน " ++ toString direct_exp ++ " ครั้ง (" ++
       toString points ++ " คะแนน)"])
  else (0, [])

/-- Province-experience component of `calculate_route_score`: guarded by
the truthiness of `dest.get('province', '')`. -/
def provincePartB (st : EngineState) (driver dest_province : String) : ℚ × List String :=
  if dest_province = "" then (0, [])
  else
    let province_exp := getCount (getRow st.province_experience driver) dest_province
    if 0 < province_exp then
      let points := (min (province_exp * 3) 30 : ℕ)
      ((points : ℚ),
       ["มีประสบการณ์ในจังหวัด " ++ dest_province ++ " จำนวน " ++
         toString province_exp ++ " ครั้ง (" ++ toString points ++ " คะแนน)"])
    else (0, [])

/-- Similar-location component of `calculate_route_score`: here the
source awards `min(len(similar_locations) * 4, 20)` points - four per
matched location, not five. -/
def similarPartB (st : EngineState) (driver dest_name : String) : ℚ × List String :=
  let similar_locations := find_similar (getRow st.experience_matrix driver) dest_name
  if similar_locations.isEmpty then (0, [])
  else
    let points := (min (similar_locations.length * 4) 20 : ℕ)
    ((points : ℚ),
     ["เคยไปสถานที่คล้ายกัน " ++ toString similar_locations.length ++ " แห่ง (" ++
       toString points ++ " คะแนน)"])

/-- Overall-experience component of `calculate_route_score` for the
destination at 1-based position `i` of the route: evaluated whenever the
driver has a `drivers_stats` entry (no positivity guard), but the
explanation is appended only when `i == 1`. -/
def overallPartB (st : EngineState) (driver : String) (i : Nat) : ℚ × List String :=
  match List.lookup driver st.drivers_stats with
  | some stats =>
      let points : ℚ := min ((stats.total_trips : ℚ) * 0.5) 10
      (points,
       if i = 1 then
         ["ประสบการณ์รวม " ++ toString stats.total_trips ++ " เที่ยว (" ++
           toString points ++ " คะแนน)"]
       else [])
  | none => (0, [])

/-- Score and explanations of one destination (1-based position `i`) for
one driver inside the route loop of `calculate_route_score`, components
summed and explanations appended in source order. -/
def scoreDestB (st : EngineState) (driver : String) (i : Nat) (dest : RouteDest) :
    ℚ × List String :=
  let p1 := directPartB st driver dest.name
  let p2 := provincePartB st driver (dest.province.getD "")
  let p3 := similarPartB st driver dest.name
  let p4 := overallPartB st driver i
  (p1.1 + p2.1 + p3.1 + p4.1, p1.2 ++ p2.2 ++ p3.2 ++ p4.2)

/-- Per-destination record appended to `route_details`. -/
structure DestDetail where
  destination : String
  province : String
  score : ℚ
  explanations : List String
deriving DecidableEq, Repr, Inhabited

/-- Per-driver result record of `calculate_route_score`. -/
structure RouteScore where
  total_score : ℚ
  average_score : ℚ
  route_details : List DestDetail
  stats : Option EngineStats
  destinations_count : Nat
deriving DecidableEq, Repr, Inhabited

/-- Embeds `RecommendationEngine.calculate_route_score`: raises
`ValueError("Destinations must be 1-4 locations")` when the destination
list is empty or longer than four, otherwise scores every driver of the
experience matrix on every destination.  `total_score` accumulates the
unrounded per-destination scores; the stored scores are rounded.  The
division by `len(destinations)` is safe in the source because the guard
has ensured a non-empty list. -/
def calculate_route_score (st : EngineState) (destinations : List RouteDest) :
    Except String (List (String × RouteScore)) :=
  if destinations.isEmpty || destinations.length > 4 then
    Except.error "Destinations must be 1-4 locations"
  else
    Except.ok <|
      (matKeys st.experience_matrix).map (fun driver =>
        let route_details := destinations.enum.map (fun p =>
          let sc := scoreDestB st driver (p.1 + 1) p.2
          ({ destination := p.2.name
             province := p.2.province.getD ""
             score := round2 sc.1
             explanations := sc.2 } : DestDetail))
        let total_score :=
          (destinations.enum.map (fun p => (scoreDestB st driver (p.1 + 1) p.2).1)).sum
        let avg_score := total_score / (destinations.length : ℚ)
        (driver,
         { total_score := round2 total_score
           average_score := round2 avg_score
           route_details := route_details
           stats := List.lookup driver st.drivers_stats
           destinations_count := destinations.length }))

/-- Invariant: every inner map of the matrix has pairwise-distinct keys,
as a Python dict always does. -/
def RowsNodup (m : ExpMatrix) : Prop :=
  ∀ p ∈ m, ((p.2 : CountMap).map Prod.fst).Nodup

/-- Concrete raw row for the claim C4 witness: location present, province
blank, a single driver. -/
def w4row : RawRow :=
  { location := some "L", province := none, driver := some "A",
    representative := none }

/-- Concrete trip row for the claim C4 witness. -/
def w4trip : TripRow :=
  { location := "L", province := none, driver := "A", representative := "" }

/-- Raw rows for the claim C6 witness: driver `A` visits `L` ten times and
`M` once. -/
def w6rows : List RawRow :=
  List.replicate 10
      ({ location := some "L", province := none, driver := some "A",
         representative := none } : RawRow) ++
    [{ location := some "M", province := none, driver := some "A",
       representative := none }]

/-- Concrete raw row for the claim C7 witness, drivers joined by `+`. -/
def w7row : RawRow :=
  { location := some "L", province := some "P", driver := some "A+B",
    representative := some "R" }

/-- Raw rows for the claim C1 witness. -/
def w1rows : List RawRow :=
  [{ location := some "a", province := some "p", driver := some "A",
     representative := some "r" }]

/-- Route for the claim C1 witness. -/
def w1dests : List RouteDest := [{ name := "a", province := some "p" }]

/-- Ranking list produced for the claim C1 witness route. -/
def w1res : List (String × RouteScore) :=
  match calculate_route_score (engineFromRaw w1rows) w1dests with
  | Except.ok r => r
  | Except.error _ => []

/-- First ranking entry of the claim C1 witness. -/
def w1entry : String × RouteScore := w1res.getD 0 default

/-- First per-destination detail of the claim C1 witness entry. -/
def w1det : DestDetail := w1entry.2.route_details.getD 0 default

/-- Raw rows for the claim C8 witness: two locations, three trips. -/
def w8rows : List RawRow :=
  [{ location := some "L", province := some "P", driver := some "A",
     representative := none },
   { location := some "L", province := some "P", driver := some "A",
     representative := none },
   { location := some "M", province := none, driver := some "A",
     representative := none }]

/-- Raw rows of the single-Hospital-X scenario: driver `A` visited
`Hospital X` three times; driver `B` appears in no record. -/
def c5rows : List RawRow :=
  [{ location := some "Hospital X", province := some "P", driver := some "A",
     representative := some "rep" },
   { location := some "Hospital X", province := some "P", driver := some "A",
     representative := some "rep" },
   { location := some "Hospital X", province := some "P", driver := some "A",
     representative := some "rep" }]

/-- Raw rows for the claim C3 counterexample and witness: driver `D` has
visited the single location `a x`. -/
def c3rows : List RawRow :=
  [{ location := some "a x", province := none, driver := some "D",
     representative := none }]

/-- Raw rows for the claim C9 counterexample: driver `D` made one trip to
location `q`. -/
def c9rows : List RawRow :=
  [{ location := some "q", province := none, driver := some "D",
     representative := none }]

/-- Route for the claim C9 counterexample: two destinations sharing no
token with `q`. -/
def c9dests : List RouteDest :=
  [{ name := "x", province := none }, { name := "y", province := none }]

/-- Result list of the claim C9 counterexample route. -/
def c9res : List (String × RouteScore) :=
  match calculate_route_score (engineFromRaw c9rows) c9dests with
  | Except.ok r => r
  | Except.error _ => []

/-- Detail record of the second destination for the claim C9
counterexample. -/
def c9det : DestDetail := (c9res.getD 0 default).2.route_details.getD 1 default

/-- Raw rows for the claim C10 witness: driver `D` has visited `a x`. -/
def c10rows : List RawRow :=
  [{ location := some "a x", province := none, driver := some "D",
     representative := none }]

/-! Helper lemmas about the association-list embedding of the nested
dictionaries. -/

theorem getCount_bumpCount_self (m : CountMap) (k : String) :
    getCount (bumpCount m k) k = getCount m k + 1 := by
  induction m with
  | nil => simp [bumpCount, getCount]
  | cons p rest ih =>
      obtain ⟨k', v⟩ := p
      by_cases h : k' = k <;> simp [bumpCount, getCount, h, ih]

theorem getCount_bumpCount_ne (m : CountMap) (k k' : String) (h : k' ≠ k) :
    getCount (bumpCount m k) k' = getCount m k' := by
  induction m with
  | nil => simp [bumpCount, getCount, Ne.symm h]
  | cons p rest ih =>
      obtain ⟨a, v⟩ := p
      by_cases h2 : a = k
      · subst h2
        simp [bumpCount, getCount, Ne.symm h]
      · by_cases h3 : a = k'
        · subst h3
          simp [bumpCount, getCount, h2]
        · simp [bumpCount, getCount, h2, h3, ih]

theorem getRow_bumpAt_self (m : ExpMatrix) (d k : String) :
    getRow (bumpAt m d k) d = bumpCount (getRow m d) k := by
  induction m with
  | nil => simp [bumpAt, getRow, bumpCount]
  | cons p rest ih =>
      obtain ⟨d', row⟩ := p
      by_cases h : d' = d <;> simp [bumpAt, getRow, h, ih]

theorem getRow_bumpAt_ne (m : ExpMatrix) (d k d' : String) (h : d' ≠ d) :
    getRow (bumpAt m d k) d' = getRow m d' := by
  induction m with
  | nil => simp [bumpAt, getRow, Ne.symm h]
  | cons p rest ih =>
      obtain ⟨a, row⟩ := p
      by_cases h2 : a = d
      · subst h2
        simp [bumpAt, getRow, Ne.symm h]
      · by_cases h3 : a = d'
        · subst h3
          simp [bumpAt, getRow, h2]
        · simp [bumpAt, getRow, h2, h3, ih]

theorem mem_matKeys_bumpAt (m : ExpMatrix) (d k x : String) :
    x ∈ matKeys (bumpAt m d k) ↔ x ∈ matKeys m ∨ x = d := by
  induction m with
  | nil => simp [bumpAt, matKeys]
  | cons p rest ih =>
      obtain ⟨d', row⟩ := p
      by_cases h : d' = d
      · subst h
        simp [bumpAt, matKeys]
        tauto
      · simp [bumpAt, matKeys, h] at ih ⊢
        tauto

theorem getCount_pos_mem (m : CountMap) (k : String) (h : 0 < getCount m k) :
    k ∈ m.map Prod.fst := by
  induction m with
  | nil => simp [getCount] at h
  | cons p rest ih =>
      obtain ⟨k', v⟩ := p
      by_cases h2 : k' = k
      · simp [h2]
      · simp [getCount, h2] at h
        simp [ih h]

theorem lookup_map_of_not_mem {α : Type} (l : List String) (f : String → α)
    (d : String) (h : d ∉ l) :
    List.lookup d (l.map (fun k => (k, f k))) = none := by
  induction l with
  | nil => simp [List.lookup]
  | cons k ks ih =>
      simp at h
      push_neg at h
      simpa [List.lookup, List.map, beq_eq_false_iff_ne.mpr h.1] using ih h.2

theorem lookup_pairmap_of_mem {α : Type} (l : List (String × CountMap))
    (f : String → CountMap → α) (d : String) (h : d ∈ l.map Prod.fst) :
    List.lookup d (l.map (fun p => (p.1, f p.1 p.2))) = some (f d (getRow l d)) := by
  induction l with
  | nil => simp at h
  | cons p rest ih =>
      obtain ⟨d', row⟩ := p
      by_cases h2 : d' = d
      · subst h2
        simp [List.lookup, getRow]
      · have h3 : d ∈ rest.map Prod.fst := by
          rw [List.map_cons] at h
          rcases List.mem_cons.mp h with h4 | h4
          · exact absurd h4.symm h2
          · exact h4
        have hbeq : (d == d') = false := beq_eq_false_iff_ne.mpr (Ne.symm h2)
        simp [List.lookup, hbeq, getRow, h2, ih h3]

/-! Rounding bounds: `round2` maps `[0, 100]` into `[0, 100]`. -/

theorem round2_nonneg (q : ℚ) (h : 0 ≤ q) : 0 ≤ round2 q := by
  have h1 : (0 : ℤ) ≤ round (q * 100) := by
    rw [round_eq, Int.le_floor]
    push_cast
    linarith
  unfold round2
  positivity

theorem round2_le_100 (q : ℚ) (h : q ≤ 100) : round2 q ≤ 100 := by
  have h1 : round (q * 100) ≤ (10000 : ℤ) := by
    rw [round_eq]
    have : (⌊q * 100 + 1 / 2⌋ : ℤ) < 10001 := by
      rw [Int.floor_lt]
      push_cast
      linarith
    omega
  unfold round2
  rw [div_le_iff₀ (by norm_num)]
  calc ((round (q * 100) : ℤ) : ℚ) ≤ ((10000 : ℤ) : ℚ) := by exact_mod_cast h1
    _ = 100 * 100 := by norm_num

theorem mem_rowKeys_bumpCount (m : CountMap) (k x : String) :
    x ∈ (bumpCount m k).map Prod.fst ↔ x ∈ m.map Prod.fst ∨ x = k := by
  induction m with
  | nil => simp [bumpCount]
  | cons p rest ih =>
      obtain ⟨a, v⟩ := p
      by_cases h : a = k
      · subst h
        simp [bumpCount]
        tauto
      · simp [bumpCount, h, ih]
        tauto

theorem nodup_rowKeys_bumpCount (m : CountMap) (k : String)
    (h : (m.map Prod.fst).Nodup) : ((bumpCount m k).map Prod.fst).Nodup := by
  induction m with
  | nil => simp [bumpCount]
  | cons p rest ih =>
      obtain ⟨a, v⟩ := p
      rw [List.map_cons, List.nodup_cons] at h
      by_cases h2 : a = k
      · subst h2
        simpa [bumpCount, List.nodup_cons] using h
      · have hb : bumpCount ((a, v) :: rest) k = (a, v) :: bumpCount rest k := by
          simp [bumpCount, h2]
        rw [hb, List.map_cons, List.nodup_cons]
        refine ⟨?_, ih h.2⟩
        intro hmem
        rcases (mem_rowKeys_bumpCount rest k a).mp hmem with h3 | h3
        · exact h.1 h3
        · exact h2 h3

theorem rowsNodup_nil : RowsNodup [] := by
  intro p hp
  simp at hp

theorem rowsNodup_bumpAt (m : ExpMatrix) (d k : String) (h : RowsNodup m) :
    RowsNodup (bumpAt m d k) := by
  induction m with
  | nil =>
      intro p hp
      simp [bumpAt] at hp
      subst hp
      simp
  | cons q rest ih =>
      obtain ⟨a, row⟩ := q
      have hrow : (row.map Prod.fst).Nodup := h (a, row) (by simp)
      have hrest : RowsNodup rest := by
        intro p hp
        exact h p (by simp [hp])
      by_cases h2 : a = d
      · subst h2
        intro p hp
        simp [bumpAt] at hp
        rcases hp with hp | hp
        · subst hp
          exact nodup_rowKeys_bumpCount row k hrow
        · exact hrest p hp
      · intro p hp
        simp [bumpAt, h2] at hp
        rcases hp with hp | hp
        · subst hp
          exact hrow
        · exact ih hrest p hp

theorem rowsNodup_foldl_bump (ds : List String) (loc : String)
    (g : (ExpMatrix × ExpMatrix) → String → ExpMatrix) :
    ∀ ms : ExpMatrix × ExpMatrix, RowsNodup ms.1 →
      RowsNodup ((ds.foldl (fun ms d => (bumpAt ms.1 d loc, g ms d)) ms).1) := by
  induction ds with
  | nil => intro ms h; simpa using h
  | cons d rest ih =>
      intro ms h
      exact ih _ (rowsNodup_bumpAt ms.1 d loc h)

theorem rowsNodup_processRowA (ms : ExpMatrix × ExpMatrix) (r : RawRow)
    (h : RowsNodup ms.1) : RowsNodup (processRowA ms r).1 := by
  unfold processRowA
  cases hl : r.location with
  | none => exact h
  | some loc => exact rowsNodup_foldl_bump (cleanDriversA r) loc _ ms h

theorem rowsNodup_build (rows : List RawRow) :
    ∀ ms : ExpMatrix × ExpMatrix, RowsNodup ms.1 →
      RowsNodup ((rows.foldl processRowA ms).1) := by
  induction rows with
  | nil => intro ms h; simpa using h
  | cons r rest ih =>
      intro ms h
      exact ih _ (rowsNodup_processRowA ms r h)

theorem mem_keys_foldl_bump (ds : List String) (loc : String)
    (g : (ExpMatrix × ExpMatrix) → String → ExpMatrix) :
    ∀ (ms : ExpMatrix × ExpMatrix) (x : String),
      x ∈ matKeys ((ds.foldl (fun ms d => (bumpAt ms.1 d loc, g ms d)) ms).1) →
      x ∈ matKeys ms.1 ∨ x ∈ ds := by
  induction ds with
  | nil => intro ms x h; exact Or.inl h
  | cons d rest ih =>
      intro ms x h
      rcases ih _ x h with h2 | h2
      · rcases (mem_matKeys_bumpAt ms.1 d loc x).mp h2 with h3 | h3
        · exact Or.inl h3
        · exact Or.inr (by simp [h3])
      · exact Or.inr (by simp [h2])

theorem mem_keys_processRowA (ms : ExpMatrix × ExpMatrix) (r : RawRow) (x : String)
    (h : x ∈ matKeys (processRowA ms r).1) : x ∈ matKeys ms.1 ∨ x ∈ cleanDriversA r := by
  unfold processRowA at h
  cases hl : r.location with
  | none => rw [hl] at h; exact Or.inl h
  | some loc =>
      rw [hl] at h
      exact mem_keys_foldl_bump (cleanDriversA r) loc _ ms x h

theorem mem_keys_build (rows : List RawRow) :
    ∀ (ms : ExpMatrix × ExpMatrix) (x : String),
      x ∈ matKeys ((rows.foldl processRowA ms).1) →
      x ∈ matKeys ms.1 ∨ x ∈ rows.flatMap cleanDriversA := by
  induction rows with
  | nil => intro ms x h; exact Or.inl h
  | cons r rest ih =>
      intro ms x h
      rcases ih _ x h with h2 | h2
      · rcases mem_keys_processRowA ms r x h2 with h3 | h3
        · exact Or.inl h3
        · exact Or.inr (by simp [h3])
      · exact Or.inr (by
          simp only [List.flatMap_cons, List.mem_append]
          exact Or.inr h2)

/-! Claim C2: route validation. -/

/-- Claim C2: the route entry point fails with the InvalidRoute error
(`ValueError("Destinations must be 1-4 locations")`) precisely when the
destination list is empty or longer than four, and succeeds for every
list of one to four destinations. -/
theorem claim_C2_route_validation (st : EngineState) (destinations : List RouteDest) :
    (calculate_route_score st destinations =
        Except.error "Destinations must be 1-4 locations" ↔
      destinations = [] ∨ 4 < destinations.length)
    ∧ (1 ≤ destinations.length → destinations.length ≤ 4 →
        ∃ res, calculate_route_score st destinations = Except.ok res) := by
  by_cases h : (destinations.isEmpty || destinations.length > 4) = true
  · have herr : calculate_route_score st destinations =
        Except.error "Destinations must be 1-4 locations" := by
      unfold calculate_route_score
      rw [if_pos h]
    have hcases : destinations = [] ∨ 4 < destinations.length := by
      rcases Bool.or_eq_true_iff.mp h with h2 | h2
      · exact Or.inl (List.isEmpty_iff.mp h2)
      · exact Or.inr (by simpa using h2)
    refine ⟨⟨fun _ => hcases, fun _ => herr⟩, ?_⟩
    intro h1 h4
    rcases hcases with h2 | h2
    · rw [h2] at h1; simp at h1
    · omega
  · have hok : calculate_route_score st destinations =
        Except.ok ((matKeys st.experience_matrix).map (fun driver =>
          let route_details := destinations.enum.map (fun p =>
            let sc := scoreDestB st driver (p.1 + 1) p.2
            ({ destination := p.2.name
               province := p.2.province.getD ""
               score := round2 sc.1
               explanations := sc.2 } : DestDetail))
          let total_score :=
            (destinations.enum.map (fun p => (scoreDestB st driver (p.1 + 1) p.2).1)).sum
          let avg_score := total_score / (destinations.length : ℚ)
          (driver,
           { total_score := round2 total_score
             average_score := round2 avg_score
             route_details := route_details
             stats := List.lookup driver st.drivers_stats
             destinations_count := destinations.length }))) := by
      unfold calculate_route_score
      rw [if_neg h]
    constructor
    · constructor
      · intro hh
        rw [hok] at hh
        exact absurd hh (by simp)
      · intro hh
        exfalso
        rcases hh with h2 | h2
        · exact h (by simp [h2])
        · exact h (by simp [h2])
    · intro _ _
      exact ⟨_, hok⟩

/-- Witness for claim C2 at concrete inputs: the empty route errors and a
one-destination route succeeds. -/
theorem claim_C2_route_validation_witness :
    calculate_route_score (engineFromRaw []) [] =
        Except.error "Destinations must be 1-4 locations"
    ∧ ∃ res, calculate_route_score (engineFromRaw [])
        [{ name := "a", province := none }] = Except.ok res :=
  ⟨(claim_C2_route_validation (engineFromRaw []) []).1.mpr (Or.inl rfl),
   (claim_C2_route_validation (engineFromRaw [])
      [{ name := "a", province := none }]).2 (by decide) (by decide)⟩

/-! Claim C4: empty-province records. -/

/-- Claim C4: a trip record whose province is empty (a pandas `NaN`,
embedded `none`) increments the driver's location count in the experience
matrix and adds nothing to the province-experience map, in both the
`build_experience_matrix` variant and the `load_data` variant. -/
theorem claim_C4_empty_province (em pm : ExpMatrix) (r : RawRow) (loc d : String)
    (t : TripRow) (hl : r.location = some loc) (hp : r.province = none)
    (hd : cleanDriversA r = [d]) (ht : t.province = none) :
    (processRowA (em, pm) r).2 = pm
    ∧ getCount (getRow (processRowA (em, pm) r).1 d) loc =
        getCount (getRow em d) loc + 1
    ∧ (loadStepB (em, pm) t).2 = pm
    ∧ getCount (getRow (loadStepB (em, pm) t).1 t.driver) t.location =
        getCount (getRow em t.driver) t.location + 1 := by
  have hA : processRowA (em, pm) r = (bumpAt em d loc, pm) := by
    unfold processRowA
    simp only [hl, hd, hp, List.foldl_cons, List.foldl_nil]
  refine ⟨by rw [hA], ?_, ?_, ?_⟩
  · rw [hA]
    simp [getRow_bumpAt_self, getCount_bumpCount_self]
  · unfold loadStepB
    simp [ht]
  · unfold loadStepB
    simp [getRow_bumpAt_self, getCount_bumpCount_self]

/-- Witness for claim C4 at concrete inputs. -/
theorem claim_C4_empty_province_witness :
    (processRowA ([], []) w4row).2 = []
    ∧ getCount (getRow (processRowA ([], []) w4row).1 "A") "L" =
        getCount (getRow [] "A") "L" + 1
    ∧ (loadStepB ([], []) w4trip).2 = []
    ∧ getCount (getRow (loadStepB ([], []) w4trip).1 w4trip.driver) w4trip.location =
        getCount (getRow [] w4trip.driver) w4trip.location + 1 :=
  claim_C4_empty_province [] [] w4row "L" "A" w4trip rfl rfl (by decide) rfl

/-! Claim C6: direct-experience cap. -/

/-- Claim C6: in both variants the direct-experience component equals
`min(visit_count * 10, 40)`; ten visits give exactly 40, one visit gives
exactly 10, and zero visits contribute 0 with no explanation. -/
theorem claim_C6_direct_cap (st : SysState) (est : EngineState)
    (destination dest_name driver : String) :
    ((directPartA st destination driver).1 =
        ((min (getCount (getRow st.experience_matrix driver) destination * 10) 40 : ℕ) : ℚ))
    ∧ (getCount (getRow st.experience_matrix driver) destination = 10 →
        (directPartA st destination driver).1 = 40)
    ∧ (getCount (getRow st.experience_matrix driver) destination = 1 →
        (directPartA st destination driver).1 = 10)
    ∧ (getCount (getRow st.experience_matrix driver) destination = 0 →
        directPartA st destination driver = (0, []))
    ∧ ((directPartB est driver dest_name).1 =
        ((min (getCount (getRow est.experience_matrix driver) dest_name * 10) 40 : ℕ) : ℚ))
    ∧ (getCount (getRow est.experience_matrix driver) dest_name = 10 →
        (directPartB est driver dest_name).1 = 40)
    ∧ (getCount (getRow est.experience_matrix driver) dest_name = 1 →
        (directPartB est driver dest_name).1 = 10)
    ∧ (getCount (getRow est.experience_matrix driver) dest_name = 0 →
        directPartB est driver dest_name = (0, [])) := by
  refine ⟨?_, ?_, ?_, ?_, ?_, ?_, ?_, ?_⟩
  · unfold directPartA
    by_cases h : 0 < getCount (getRow st.experience_matrix driver) destination
    · simp [h]
    · have h0 : getCount (getRow st.experience_matrix driver) destination = 0 := by omega
      simp [h, h0]
  · intro h
    unfold directPartA
    rw [h]
    norm_num
  · intro h
    unfold directPartA
    rw [h]
    norm_num
  · intro h
    unfold directPartA
    rw [h]
    norm_num
  · unfold directPartB
    by_cases h : 0 < getCount (getRow est.experience_matrix driver) dest_name
    · simp [h]
    · have h0 : getCount (getRow est.experience_matrix driver) dest_name = 0 := by omega
      simp [h, h0]
  · intro h
    unfold directPartB
    rw [h]
    norm_num
  · intro h
    unfold directPartB
    rw [h]
    norm_num
  · intro h
    unfold directPartB
    rw [h]
    norm_num

/-- Witness for claim C6 at concrete inputs: 10 visits score 40, one visit
scores 10, no visits contribute nothing, in both variants. -/
theorem claim_C6_direct_cap_witness :
    (directPartA (buildSystem w6rows) "L" "A").1 = 40
    ∧ (directPartA (buildSystem w6rows) "M" "A").1 = 10
    ∧ directPartA (buildSystem w6rows) "X" "A" = (0, [])
    ∧ (directPartB (engineFromRaw w6rows) "A" "L").1 = 40
    ∧ directPartB (engineFromRaw w6rows) "A" "X" = (0, []) :=
  ⟨(claim_C6_direct_cap (buildSystem w6rows) (engineFromRaw w6rows) "L" "L" "A").2.1
      (by decide),
   (claim_C6_direct_cap (buildSystem w6rows) (engineFromRaw w6rows) "M" "L" "A").2.2.1
      (by decide),
   (claim_C6_direct_cap (buildSystem w6rows) (engineFromRaw w6rows) "X" "L" "A").2.2.2.1
      (by decide),
   (claim_C6_direct_cap (buildSystem w6rows) (engineFromRaw w6rows) "L" "L" "A").2.2.2.2.2.1
      (by decide),
   (claim_C6_direct_cap (buildSystem w6rows) (engineFromRaw w6rows) "L" "X" "A").2.2.2.2.2.2.2
      (by decide)⟩

/-! Claim C7: multi-driver rows. -/

/-- Claim C7: a raw row whose driver field splits into two distinct names
yields one trip row per driver sharing location, province and
representative in `save_trips_data`, and in `build_experience_matrix`
increments each listed driver's count for the row's location by exactly
one. -/
theorem claim_C7_multi_driver (em pm : ExpMatrix) (r : RawRow) (loc a b : String)
    (hl : r.location = some loc) (hab : a ≠ b)
    (hA : cleanDriversA r = [a, b]) (hB : cleanDriversDB r = [a, b]) :
    save_trips_data [r] =
      [{ location := loc, province := r.province, driver := a,
         representative := r.representative.getD "" },
       { location := loc, province := r.province, driver := b,
         representative := r.representative.getD "" }]
    ∧ getCount (getRow (processRowA (em, pm) r).1 a) loc =
        getCount (getRow em a) loc + 1
    ∧ getCount (getRow (processRowA (em, pm) r).1 b) loc =
        getCount (getRow em b) loc + 1 := by
  have hfold : (processRowA (em, pm) r).1 = bumpAt (bumpAt em a loc) b loc := by
    unfold processRowA
    simp only [hl, hA, List.foldl_cons, List.foldl_nil]
  refine ⟨?_, ?_, ?_⟩
  · unfold save_trips_data
    simp only [List.flatMap_cons, List.flatMap_nil, hl, hB, List.map_cons,
      List.map_nil, List.append_nil]
  · rw [hfold, getRow_bumpAt_ne _ _ _ _ hab, getRow_bumpAt_self,
      getCount_bumpCount_self]
  · rw [hfold, getRow_bumpAt_self, getCount_bumpCount_self,
      getRow_bumpAt_ne _ _ _ _ (Ne.symm hab)]

/-- Witness for claim C7 at a concrete multi-driver row. -/
theorem claim_C7_multi_driver_witness :
    save_trips_data [w7row] =
      [{ location := "L", province := some "P", driver := "A",
         representative := "R" },
       { location := "L", province := some "P", driver := "B",
         representative := "R" }]
    ∧ getCount (getRow (processRowA ([], []) w7row).1 "A") "L" =
        getCount (getRow [] "A") "L" + 1
    ∧ getCount (getRow (processRowA ([], []) w7row).1 "B") "L" =
        getCount (getRow [] "B") "L" + 1 :=
  claim_C7_multi_driver [] [] w7row "L" "A" "B" rfl (by decide) (by decide) (by decide)

/-! Per-component bounds used for the score-bound claim. -/

theorem directPartA_bounds (st : SysState) (destination driver : String) :
    0 ≤ (directPartA st destination driver).1 ∧
      (directPartA st destination driver).1 ≤ 40 := by
  unfold directPartA
  by_cases h : 0 < getCount (getRow st.experience_matrix driver) destination
  · simp only [if_pos h]
    refine ⟨by positivity, ?_⟩
    have h2 : (min (getCount (getRow st.experience_matrix driver) destination * 10) 40 : ℕ) ≤ 40 :=
      min_le_right _ _
    exact_mod_cast h2
  · simp [h]

theorem provincePartA_bounds (st : SysState) (destination_province : Option String)
    (driver : String) :
    0 ≤ (provincePartA st destination_province driver).1 ∧
      (provincePartA st destination_province driver).1 ≤ 30 := by
  unfold provincePartA
  cases destination_province with
  | none => simp
  | some dp =>
      dsimp only
      by_cases h : dp = ""
      · simp [h]
      · rw [if_neg h]
        by_cases h2 : 0 < getCount (getRow st.province_experience driver) dp
        · rw [if_pos h2]
          refine ⟨by positivity, ?_⟩
          have h3 : (min (getCount (getRow st.province_experience driver) dp * 3) 30 : ℕ) ≤ 30 :=
            min_le_right _ _
          dsimp only
          exact_mod_cast h3
        · rw [if_neg h2]
          norm_num

theorem similarPartA_bounds (st : SysState) (destination driver : String) :
    0 ≤ (similarPartA st destination driver).1 ∧
      (similarPartA st destination driver).1 ≤ 20 := by
  unfold similarPartA
  by_cases h : (find_similar (getRow st.experience_matrix driver) destination).isEmpty
  · simp [h]
  · simp only [h, Bool.false_eq_true, if_false]
    refine ⟨by positivity, ?_⟩
    have h2 : (min ((find_similar (getRow st.experience_matrix driver) destination).length * 5) 20 : ℕ) ≤ 20 :=
      min_le_right _ _
    exact_mod_cast h2

theorem overallPartA_bounds (st : SysState) (driver : String) :
    0 ≤ (overallPartA st driver).1 ∧ (overallPartA st driver).1 ≤ 10 := by
  unfold overallPartA
  by_cases h : 0 < (getStatsA st driver).total_trips
  · simp only [if_pos h]
    refine ⟨le_min (by positivity) (by norm_num), min_le_right _ _⟩
  · simp [h]

theorem directPartB_bounds (st : EngineState) (driver dest_name : String) :
    0 ≤ (directPartB st driver dest_name).1 ∧
      (directPartB st driver dest_name).1 ≤ 40 := by
  unfold directPartB
  by_cases h : 0 < getCount (getRow st.experience_matrix driver) dest_name
  · simp only [if_pos h]
    refine ⟨by positivity, ?_⟩
    have h2 : (min (getCount (getRow st.experience_matrix driver) dest_name * 10) 40 : ℕ) ≤ 40 :=
      min_le_right _ _
    exact_mod_cast h2
  · simp [h]

theorem provincePartB_bounds (st : EngineState) (driver dest_province : String) :
    0 ≤ (provincePartB st driver dest_province).1 ∧
      (provincePartB st driver dest_province).1 ≤ 30 := by
  unfold provincePartB
  dsimp only
  by_cases h : dest_province = ""
  · simp [h]
  · rw [if_neg h]
    by_cases h2 : 0 < getCount (getRow st.province_experience driver) dest_province
    · rw [if_pos h2]
      refine ⟨by positivity, ?_⟩
      have h3 : (min (getCount (getRow st.province_experience driver) dest_province * 3) 30 : ℕ) ≤ 30 :=
        min_le_right _ _
      dsimp only
      exact_mod_cast h3
    · rw [if_neg h2]
      norm_num

theorem similarPartB_bounds (st : EngineState) (driver dest_name : String) :
    0 ≤ (similarPartB st driver dest_name).1 ∧
      (similarPartB st driver dest_name).1 ≤ 20 := by
  unfold similarPartB
  by_cases h : (find_similar (getRow st.experience_matrix driver) dest_name).isEmpty
  · simp [h]
  · simp only [h, Bool.false_eq_true, if_false]
    refine ⟨by positivity, ?_⟩
    have h2 : (min ((find_similar (getRow st.experience_matrix driver) dest_name).length * 4) 20 : ℕ) ≤ 20 :=
      min_le_right _ _
    exact_mod_cast h2

theorem overallPartB_bounds (st : EngineState) (driver : String) (i : Nat) :
    0 ≤ (overallPartB st driver i).1 ∧ (overallPartB st driver i).1 ≤ 10 := by
  unfold overallPartB
  cases List.lookup driver st.drivers_stats with
  | none => simp
  | some stats =>
      exact ⟨le_min (by positivity) (by norm_num), min_le_right _ _⟩

theorem scoreDestB_bounds (st : EngineState) (driver : String) (i : Nat)
    (dest : RouteDest) :
    0 ≤ (scoreDestB st driver i dest).1 ∧ (scoreDestB st driver i dest).1 ≤ 100 := by
  obtain ⟨h1a, h1b⟩ := directPartB_bounds st driver dest.name
  obtain ⟨h2a, h2b⟩ := provincePartB_bounds st driver (dest.province.getD "")
  obtain ⟨h3a, h3b⟩ := similarPartB_bounds st driver dest.name
  obtain ⟨h4a, h4b⟩ := overallPartB_bounds st driver i
  unfold scoreDestB
  constructor <;> dsimp only <;> linarith

/-! Claim C1: score bounds. -/

/-- Claim C1: every compatibility score of the single-destination scorer
lies in `[0, 100]`, for every destination, optional province and driver;
and in the route variant every per-destination score of every returned
ranking record lies in `[0, 100]`. -/
theorem claim_C1_score_bounds :
    (∀ (st : SysState) (destination : String) (destination_province : Option String)
        (driver : String),
      0 ≤ (scoreDriverA st destination destination_province driver).score ∧
        (scoreDriverA st destination destination_province driver).score ≤ 100)
    ∧ (∀ (st : EngineState) (destinations : List RouteDest)
        (res : List (String × RouteScore)) (driver : String) (rsc : RouteScore)
        (det : DestDetail),
      calculate_route_score st destinations = Except.ok res →
      (driver, rsc) ∈ res → det ∈ rsc.route_details →
      0 ≤ det.score ∧ det.score ≤ 100) := by
  constructor
  · intro st destination destination_province driver
    obtain ⟨h1a, h1b⟩ := directPartA_bounds st destination driver
    obtain ⟨h2a, h2b⟩ := provincePartA_bounds st destination_province driver
    obtain ⟨h3a, h3b⟩ := similarPartA_bounds st destination driver
    obtain ⟨h4a, h4b⟩ := overallPartA_bounds st driver
    unfold scoreDriverA
    dsimp only
    constructor
    · exact round2_nonneg _ (by linarith)
    · exact round2_le_100 _ (by linarith)
  · intro st destinations res driver rsc det hok hmem hdet
    unfold calculate_route_score at hok
    by_cases h : (destinations.isEmpty || destinations.length > 4) = true
    · rw [if_pos h] at hok
      exact absurd hok (by simp)
    · rw [if_neg h] at hok
      rw [Except.ok.injEq] at hok
      subst hok
      rcases List.mem_map.mp hmem with ⟨drv, hdrv, heq⟩
      rw [Prod.mk.injEq] at heq
      obtain ⟨heq1, heq2⟩ := heq
      subst heq2
      dsimp only at hdet
      rcases List.mem_map.mp hdet with ⟨p, hp, hdeteq⟩
      subst hdeteq
      dsimp only
      obtain ⟨hb1, hb2⟩ := scoreDestB_bounds st drv (p.1 + 1) p.2
      exact ⟨round2_nonneg _ hb1, round2_le_100 _ (by linarith)⟩

/-- Witness for claim C1 at concrete inputs, both variants. -/
theorem claim_C1_score_bounds_witness :
    (0 ≤ (scoreDriverA (buildSystem w1rows) "a" (some "p") "A").score ∧
      (scoreDriverA (buildSystem w1rows) "a" (some "p") "A").score ≤ 100)
    ∧ (0 ≤ w1det.score ∧ w1det.score ≤ 100) :=
  ⟨claim_C1_score_bounds.1 (buildSystem w1rows) "a" (some "p") "A",
   claim_C1_score_bounds.2 (engineFromRaw w1rows) w1dests w1res w1entry.1 w1entry.2
     w1det rfl (List.mem_singleton.mpr rfl) (List.mem_singleton.mpr rfl)⟩

theorem rowsNodup_getRow (m : ExpMatrix) (h : RowsNodup m) (d : String) :
    ((getRow m d).map Prod.fst).Nodup := by
  induction m with
  | nil => simp [getRow]
  | cons p rest ih =>
      obtain ⟨a, row⟩ := p
      have hrest : RowsNodup rest := fun q hq => h q (by simp [hq])
      by_cases h2 : a = d
      · subst h2
        simpa [getRow] using h (a, row) (by simp)
      · simpa [getRow, h2] using ih hrest

/-! Claim C8: driver statistics invariants. -/

/-- Claim C8: after aggregation, every driver of the experience matrix has
a stats entry whose `total_trips` is the sum of that driver's location
counts, whose `unique_locations` is the number of (pairwise distinct)
location keys of the driver's row, and whose `avg_trips_per_location` is
their quotient, zero when there are no locations. -/
theorem claim_C8_stats_invariants (rows : List RawRow) (driver : String)
    (h : driver ∈ matKeys (buildSystem rows).experience_matrix) :
    List.lookup driver (buildSystem rows).drivers_stats =
      some
        { total_trips := sumCounts (getRow (buildSystem rows).experience_matrix driver)
          unique_locations := (getRow (buildSystem rows).experience_matrix driver).length
          provinces_covered := (getRow (buildSystem rows).province_experience driver).length
          avg_trips_per_location :=
            if 0 < (getRow (buildSystem rows).experience_matrix driver).length then
              (sumCounts (getRow (buildSystem rows).experience_matrix driver) : ℚ) /
                ((getRow (buildSystem rows).experience_matrix driver).length : ℚ)
            else 0 }
    ∧ ((getRow (buildSystem rows).experience_matrix driver).map Prod.fst).Nodup := by
  constructor
  · have hlk := lookup_pairmap_of_mem (buildSystem rows).experience_matrix
      (fun d row =>
        ({ total_trips := sumCounts row
           unique_locations := row.length
           provinces_covered := (getRow (buildSystem rows).province_experience d).length
           avg_trips_per_location :=
             if 0 < row.length then (sumCounts row : ℚ) / (row.length : ℚ)
             else 0 } : DriverStats))
      driver h
    exact hlk
  · have hn : RowsNodup (buildSystem rows).experience_matrix :=
      rowsNodup_build rows ([], []) rowsNodup_nil
    exact rowsNodup_getRow _ hn driver

/-- Witness for claim C8 at concrete inputs. -/
theorem claim_C8_stats_invariants_witness :
    List.lookup "A" (buildSystem w8rows).drivers_stats =
      some
        { total_trips := sumCounts (getRow (buildSystem w8rows).experience_matrix "A")
          unique_locations := (getRow (buildSystem w8rows).experience_matrix "A").length
          provinces_covered := (getRow (buildSystem w8rows).province_experience "A").length
          avg_trips_per_location :=
            if 0 < (getRow (buildSystem w8rows).experience_matrix "A").length then
              (sumCounts (getRow (buildSystem w8rows).experience_matrix "A") : ℚ) /
                ((getRow (buildSystem w8rows).experience_matrix "A").length : ℚ)
            else 0 }
    ∧ ((getRow (buildSystem w8rows).experience_matrix "A").map Prod.fst).Nodup :=
  claim_C8_stats_invariants w8rows "A" (by decide)

/-! Claim C5: drivers with zero trips. -/

/-- Counterexample to claim C5: in the scorer built from the
single-Hospital-X scenario, the never-seen driver `B` is absent from the
output (and from the stats) instead of being ranked with score 0. -/
theorem claim_C5_counterexample :
    List.lookup "B" (calculate_compatibility_score (buildSystem c5rows)
        "Hospital X" (some "P")) = none
    ∧ (calculate_compatibility_score (buildSystem c5rows) "Hospital X"
        (some "P")).length = 1 := by
  constructor
  · rfl
  · rfl

/-- Claim C5 as amended: a driver who occurs in no cleaned trip record has
no entry at all in the scorer's output - the scorer enumerates only the
keys of the experience matrix, all of which stem from some record's
cleaned driver list. -/
theorem claim_C5_amended_zero_trip_drivers_omitted (rows : List RawRow)
    (destination : String) (destination_province : Option String) (d : String)
    (h : d ∉ rows.flatMap cleanDriversA) :
    List.lookup d (calculate_compatibility_score (buildSystem rows) destination
      destination_province) = none := by
  have hk : d ∉ matKeys (buildSystem rows).experience_matrix := by
    intro hmem
    have hmem2 : d ∈ matKeys ((rows.foldl processRowA ([], [])).1) := hmem
    rcases mem_keys_build rows ([], []) d hmem2 with h2 | h2
    · simp [matKeys] at h2
    · exact h h2
  unfold calculate_compatibility_score
  exact lookup_map_of_not_mem _ _ _ hk

/-- Witness for the amended claim C5 at the scenario input. -/
theorem claim_C5_amended_witness :
    List.lookup "B" (calculate_compatibility_score (buildSystem c5rows) "Hospital X"
      (some "P")) = none :=
  claim_C5_amended_zero_trip_drivers_omitted c5rows "Hospital X" (some "P") "B"
    (by decide)

/-! Claim C3: similar-location component. -/

/-- Claim C3 as amended: in the single-destination scorer the
similar-location component equals `min(min(|S|, 5) * 5, 20)` over the full
matched set `S`, while the route variant awards four points per matched
location, `min(min(|S|, 5) * 4, 20)`; in both variants an empty matched
set contributes 0 points and no explanation. -/
theorem claim_C3_similar_component (st : SysState) (est : EngineState)
    (destination dest_name driver : String) :
    ((similarPartA st destination driver).1 =
      ((min (min (find_similar_matched (getRow st.experience_matrix driver)
          destination).length 5 * 5) 20 : ℕ) : ℚ))
    ∧ (find_similar_matched (getRow st.experience_matrix driver) destination = [] →
        similarPartA st destination driver = (0, []))
    ∧ ((similarPartB est driver dest_name).1 =
      ((min (min (find_similar_matched (getRow est.experience_matrix driver)
          dest_name).length 5 * 4) 20 : ℕ) : ℚ))
    ∧ (find_similar_matched (getRow est.experience_matrix driver) dest_name = [] →
        similarPartB est driver dest_name = (0, [])) := by
  refine ⟨?_, ?_, ?_, ?_⟩
  · unfold similarPartA find_similar
    by_cases hm : find_similar_matched (getRow st.experience_matrix driver) destination = []
    · simp [hm]
    · have h5 : ((find_similar_matched (getRow st.experience_matrix driver)
          destination).take 5).isEmpty = false := by
        rw [Bool.eq_false_iff]
        intro hie
        rcases List.take_eq_nil_iff.mp (List.isEmpty_iff.mp hie) with h | h
        · omega
        · exact hm h
      simp only [h5, Bool.false_eq_true, if_false]
      rw [List.length_take]
      congr 1
      omega
  · intro hm
    unfold similarPartA find_similar
    simp [hm]
  · unfold similarPartB find_similar
    by_cases hm : find_similar_matched (getRow est.experience_matrix driver) dest_name = []
    · simp [hm]
    · have h5 : ((find_similar_matched (getRow est.experience_matrix driver)
          dest_name).take 5).isEmpty = false := by
        rw [Bool.eq_false_iff]
        intro hie
        rcases List.take_eq_nil_iff.mp (List.isEmpty_iff.mp hie) with h | h
        · omega
        · exact hm h
      simp only [h5, Bool.false_eq_true, if_false]
      rw [List.length_take]
      congr 1
      omega
  · intro hm
    unfold similarPartB find_similar
    simp [hm]

/-- Counterexample to claim C3 as stated: for destination `a y` the
driver's matched set is the singleton `[a x]` (shared token `a`), so the
claimed formula gives 5, but the route variant's similar-location
component awards 4. -/
theorem claim_C3_counterexample :
    (similarPartB (engineFromRaw c3rows) "D" "a y").1 ≠
      ((min (min (find_similar_matched
          (getRow (engineFromRaw c3rows).experience_matrix "D") "a y").length 5 * 5)
        20 : ℕ) : ℚ) := by
  intro h
  have h1 : (similarPartB (engineFromRaw c3rows) "D" "a y").1 = ((4 : ℕ) : ℚ) := rfl
  have h2 : ((min (min (find_similar_matched
      (getRow (engineFromRaw c3rows).experience_matrix "D") "a y").length 5 * 5)
        20 : ℕ) : ℚ) = ((5 : ℕ) : ℚ) := rfl
  rw [h1, h2] at h
  have h3 : (4 : ℕ) = 5 := Nat.cast_injective h
  omega

/-- Witness for the amended claim C3 at concrete inputs: the empty-set
implications discharged for destination `z`, which shares no token with
the visited location. -/
theorem claim_C3_similar_component_witness :
    similarPartA (buildSystem c3rows) "z" "D" = (0, [])
    ∧ similarPartB (engineFromRaw c3rows) "D" "z" = (0, []) :=
  ⟨(claim_C3_similar_component (buildSystem c3rows) (engineFromRaw c3rows) "z" "z"
      "D").2.1 (by decide),
   (claim_C3_similar_component (buildSystem c3rows) (engineFromRaw c3rows) "z" "z"
      "D").2.2.2 (by decide)⟩

/-! Claim C9: explanations in the route variant. -/

/-- Claim C9 as amended: per destination, the direct, province and
similar components each append exactly one explanation exactly when they
contribute non-zero points; the overall-experience component contributes
its points for every destination of the route (whenever the driver has a
stats entry) but appends its explanation only for the first destination. -/
theorem claim_C9_explanations (est : EngineState)
    (driver dest_name dest_province : String) (i : Nat) (hi : i ≠ 1) :
    ((directPartB est driver dest_name).2.length =
      if 0 < (directPartB est driver dest_name).1 then 1 else 0)
    ∧ ((provincePartB est driver dest_province).2.length =
      if 0 < (provincePartB est driver dest_province).1 then 1 else 0)
    ∧ ((similarPartB est driver dest_name).2.length =
      if 0 < (similarPartB est driver dest_name).1 then 1 else 0)
    ∧ ((overallPartB est driver i).1 = (overallPartB est driver 1).1)
    ∧ ((overallPartB est driver i).2 = [])
    ∧ ((overallPartB est driver 1).2.length =
      if (List.lookup driver est.drivers_stats).isSome then 1 else 0) := by
  refine ⟨?_, ?_, ?_, ?_, ?_, ?_⟩
  · unfold directPartB
    dsimp only
    by_cases h : 0 < getCount (getRow est.experience_matrix driver) dest_name
    · rw [if_pos h]
      dsimp only
      have h2 : 0 < (min (getCount (getRow est.experience_matrix driver) dest_name * 10)
          40 : ℕ) := by omega
      have hpos : (0 : ℚ) < ((min (getCount (getRow est.experience_matrix driver)
          dest_name * 10) 40 : ℕ) : ℚ) := by exact_mod_cast h2
      rw [if_pos hpos]
      rfl
    · rw [if_neg h]
      norm_num
  · unfold provincePartB
    dsimp only
    by_cases h : dest_province = ""
    · rw [if_pos h]
      norm_num
    · rw [if_neg h]
      by_cases h2 : 0 < getCount (getRow est.province_experience driver) dest_province
      · rw [if_pos h2]
        dsimp only
        have h3 : 0 < (min (getCount (getRow est.province_experience driver)
            dest_province * 3) 30 : ℕ) := by omega
        have hpos : (0 : ℚ) < ((min (getCount (getRow est.province_experience driver)
            dest_province * 3) 30 : ℕ) : ℚ) := by exact_mod_cast h3
        rw [if_pos hpos]
        rfl
      · rw [if_neg h2]
        norm_num
  · unfold similarPartB
    dsimp only
    by_cases h : (find_similar (getRow est.experience_matrix driver) dest_name).isEmpty
    · rw [if_pos h]
      norm_num
    · rw [if_neg h]
      dsimp only
      have hlen : 0 < (find_similar (getRow est.experience_matrix driver) dest_name).length := by
        rw [List.length_pos]
        intro hn
        rw [hn] at h
        exact h rfl
      have h3 : 0 < (min ((find_similar (getRow est.experience_matrix driver)
          dest_name).length * 4) 20 : ℕ) := by omega
      have hpos : (0 : ℚ) < ((min ((find_similar (getRow est.experience_matrix driver)
          dest_name).length * 4) 20 : ℕ) : ℚ) := by exact_mod_cast h3
      rw [if_pos hpos]
      rfl
  · unfold overallPartB
    cases List.lookup driver est.drivers_stats with
    | none => rfl
    | some stats => rfl
  · unfold overallPartB
    cases List.lookup driver est.drivers_stats with
    | none => rfl
    | some stats => simp [hi]
  · unfold overallPartB
    cases List.lookup driver est.drivers_stats with
    | none => rfl
    | some stats => rfl

/-- Counterexample to claim C9 as stated: on the second destination the
overall-experience component contributes half a point (the detail score
is 0.5), yet the detail's explanation list is empty - the non-zero
component appended no explanation there. -/
theorem claim_C9_counterexample :
    c9det.explanations = [] ∧ 0 < c9det.score := by
  constructor
  · rfl
  · have h : c9det.score = round2 (0 + 0 + 0 + min (((1 : ℕ) : ℚ) * 0.5) 10) := rfl
    rw [h]
    have hmin : min (((1 : ℕ) : ℚ) * 0.5) 10 = 1 / 2 := by
      rw [min_eq_left] <;> norm_num
    rw [hmin]
    have hsum : (0 + 0 + 0 + 1 / 2 : ℚ) = 1 / 2 := by norm_num
    rw [hsum]
    unfold round2
    have h100 : ((1 : ℚ) / 2) * 100 = ((50 : ℕ) : ℚ) := by norm_num
    rw [h100, round_natCast]
    norm_num

/-- Witness for the amended claim C9 at concrete inputs, with the second
destination (`i = 2`) discharging the non-first hypothesis. -/
theorem claim_C9_explanations_witness :
    ((directPartB (engineFromRaw c9rows) "D" "x").2.length =
      if 0 < (directPartB (engineFromRaw c9rows) "D" "x").1 then 1 else 0)
    ∧ ((provincePartB (engineFromRaw c9rows) "D" "").2.length =
      if 0 < (provincePartB (engineFromRaw c9rows) "D" "").1 then 1 else 0)
    ∧ ((similarPartB (engineFromRaw c9rows) "D" "x").2.length =
      if 0 < (similarPartB (engineFromRaw c9rows) "D" "x").1 then 1 else 0)
    ∧ ((overallPartB (engineFromRaw c9rows) "D" 2).1 =
      (overallPartB (engineFromRaw c9rows) "D" 1).1)
    ∧ ((overallPartB (engineFromRaw c9rows) "D" 2).2 = [])
    ∧ ((overallPartB (engineFromRaw c9rows) "D" 1).2.length =
      if (List.lookup "D" (engineFromRaw c9rows).drivers_stats).isSome then 1
      else 0) :=
  claim_C9_explanations (engineFromRaw c9rows) "D" "x" "" 2 (by decide)

/-! Claim C10: the destination itself is in the similar-location set. -/

/-- Claim C10: `_find_similar_locations` does not exclude the destination
itself - for a driver who has visited the exact destination, whenever
the destination's lowercased token list has a word outside the stoplist,
the destination is a member of the matched set, so the same visited
location earns both direct-experience points and similar-location bonus
points. -/
theorem claim_C10_self_match (st : SysState) (driver destination : String)
    (hv : 0 < getCount (getRow st.experience_matrix driver) destination)
    (ht : ∃ w ∈ tokens destination, w ≠ "โรงพยาบาล" ∧ w ≠ "ที่") :
    destination ∈ find_similar_matched (getRow st.experience_matrix driver) destination
    ∧ 0 < (directPartA st destination driver).1
    ∧ 0 < (similarPartA st destination driver).1 := by
  obtain ⟨w, hw, hw1, hw2⟩ := ht
  have hmem : destination ∈ (getRow st.experience_matrix driver).map Prod.fst :=
    getCount_pos_mem _ _ hv
  have hmatched : destination ∈
      find_similar_matched (getRow st.experience_matrix driver) destination := by
    unfold find_similar_matched
    rw [List.mem_filter]
    refine ⟨hmem, ?_⟩
    dsimp only
    have hwkept : w ∈ ((tokens destination).filter
        (fun x => decide (x ∈ tokens destination))).filter
        (fun x => x != "โรงพยาบาล" && x != "ที่") := by
      rw [List.mem_filter]
      constructor
      · rw [List.mem_filter]
        exact ⟨hw, by simpa using hw⟩
      · simp [hw1, hw2]
    have hne := List.ne_nil_of_mem hwkept
    simp only [Bool.not_eq_true']
    rw [← Bool.not_eq_true, List.isEmpty_iff]
    exact hne
  refine ⟨hmatched, ?_, ?_⟩
  · unfold directPartA
    rw [if_pos hv]
    dsimp only
    have h2 : 0 < (min (getCount (getRow st.experience_matrix driver)
        destination * 10) 40 : ℕ) := by omega
    exact_mod_cast h2
  · unfold similarPartA find_similar
    dsimp only
    have hm : find_similar_matched (getRow st.experience_matrix driver)
        destination ≠ [] := List.ne_nil_of_mem hmatched
    have htake : (find_similar_matched (getRow st.experience_matrix driver)
        destination).take 5 ≠ [] := by
      intro hnil
      rcases List.take_eq_nil_iff.mp hnil with h | h
      · omega
      · exact hm h
    have h5 : ((find_similar_matched (getRow st.experience_matrix driver)
        destination).take 5).isEmpty = false := by
      rw [← Bool.not_eq_true, List.isEmpty_iff]
      exact htake
    rw [h5]
    rw [if_neg (by simp)]
    dsimp only
    have hlen : 0 < ((find_similar_matched (getRow st.experience_matrix driver)
        destination).take 5).length := List.length_pos.mpr htake
    have h3 : 0 < (min (((find_similar_matched (getRow st.experience_matrix driver)
        destination).take 5).length * 5) 20 : ℕ) := by omega
    exact_mod_cast h3

/-- Witness for claim C10: querying the visited location itself earns
both components. -/
theorem claim_C10_self_match_witness :
    "a x" ∈ find_similar_matched
        (getRow (buildSystem c10rows).experience_matrix "D") "a x"
    ∧ 0 < (directPartA (buildSystem c10rows) "a x" "D").1
    ∧ 0 < (similarPartA (buildSystem c10rows) "a x" "D").1 :=
  claim_C10_self_match (buildSystem c10rows) "D" "a x" (by decide) (by decide)
